import Mathlib

/-
Shallow embedding of pc_switch (src/main.py), a MicroPython firmware that
pulses GPIO-driven relays in response to single JSON commands received over
raw TCP, with a connectivity watchdog, DST-aware clock, a daily maintenance
task and a crash-only top-level fault handler.

Modelling conventions:
  * relay pins are Nat (the GPIO numbers 2, 3, 4 from the source);
  * each async function is embedded as a pure function producing a trace of
    the externally visible actions it performs (pin writes, sleeps, syncs);
  * socket input is a list of receive events (data chunk, None result,
    EAGAIN, ETIMEDOUT, other OSError), mirroring the branches of the inner
    recv loop of receive_command;
  * the JSON decoder (library ujson.loads, not part of the repository) is
    an abstract parameter parse : String -> Option JsonVal; parse s = none
    models ValueError;
  * Python subscript command[k] is embedded with its error behaviour:
    KeyError for a missing key of a dict, TypeError on a non-dict;
  * time for the network-connection model is the count of elapsed
    one-second sleeps, and connectivity is an oracle Nat -> Bool;
  * unbounded while-loops are given explicit fuel; the fuel argument only
    bounds the recursion depth and is not part of the source.
-/

-- String literals used by the protocol (src/main.py lines 259, 262).
def gpioKey : String := "gpio"
def onStr : String := "on"
def fsStr : String := "fs"
def fooKey : String := "foo"
def barStr : String := "bar"
def emptyStr : String := ""

-- Configuration constants, src/main.py lines 13-43.
def ENABLE_LOGGING : Bool := false
def ENABLE_BLINKING : Bool := false
def ENABLE_REBOOTS : Bool := false
def REBOOT_TIME : Nat := 5
def CHECK_DST : Bool := true
def NETWORK_TIMEOUT : Nat := 10
def SHORT_RELAY_TIME : Nat := 200
def LONG_RELAY_TIME : Nat := 7000
def CHECK_TIME : Nat := 180

-- Relay pin / port pairs, src/main.py lines 17-19; first component is the
-- GPIO pin number, second the TCP port.
def __RELAY_PORT1 : Nat × Nat := (2, 7776)
def __RELAY_PORT2 : Nat × Nat := (3, 7775)
def __RELAY_PORT3 : Nat × Nat := (4, 7774)

-- src/main.py line 30: __REBOOT_RELAY = __RELAY_PORT1[0]
def __REBOOT_RELAY : Nat := __RELAY_PORT1.1

-- conn.settimeout(3) in receive_command, src/main.py line 227.
def RECV_TIMEOUT_S : Nat := 3

-- JSON values as produced by ujson.loads.
inductive JsonVal where
  | null
  | boolean (b : Bool)
  | num (n : Int)
  | str (s : String)
  | arr (elems : List JsonVal)
  | obj (fields : List (String × JsonVal))

-- Python comparison of a decoded value against a string literal:
-- only an equal string compares equal, any non-string is unequal (no error).
def JsonVal.eqStr : JsonVal → String → Bool
  | .str s, t => s == t
  | _, _ => false

-- Python errors that the dispatch code of receive_command can raise.
inductive PyErr where
  | keyError
  | typeError
  | osError
deriving DecidableEq

-- Python subscript command[k] as used at src/main.py line 259:
-- dict lookup with KeyError on a missing key, TypeError on non-dicts.
def pySubscript : JsonVal → String → Except PyErr JsonVal
  | .obj fields, k =>
    match fields.find? (fun p => p.1 == k) with
    | some p => Except.ok p.2
    | none => Except.error PyErr.keyError
  | _, _ => Except.error PyErr.typeError

-- Externally visible relay activity: a pin write or a millisecond sleep.
inductive RelayAction where
  | setPin (pin : Nat) (level : Nat)
  | sleepMs (ms : Nat)
deriving DecidableEq

-- src/main.py lines 175-180 (log call omitted: logging is a side channel).
def power_on (relay : Nat) : List RelayAction :=
  [RelayAction.setPin relay 1, RelayAction.sleepMs SHORT_RELAY_TIME,
   RelayAction.setPin relay 0]

-- src/main.py lines 182-187.
def force_shutdown (relay : Nat) : List RelayAction :=
  [RelayAction.setPin relay 1, RelayAction.sleepMs LONG_RELAY_TIME,
   RelayAction.setPin relay 0]

-- Semantics of a relay trace: total milliseconds spent with the pin HIGH,
-- starting from the given pin level.
def highTime (level : Nat) : List RelayAction → Nat
  | [] => 0
  | RelayAction.setPin _ v :: rest => highTime v rest
  | RelayAction.sleepMs ms :: rest =>
      (if level = 1 then ms else 0) + highTime level rest

-- Semantics of a relay trace: pin level after the trace has run.
def finalLevel (level : Nat) : List RelayAction → Nat
  | [] => level
  | RelayAction.setPin _ v :: rest => finalLevel v rest
  | RelayAction.sleepMs _ :: rest => finalLevel level rest

-- One observed result of conn.recv(1024) in the inner loop of
-- receive_command, src/main.py lines 229-250.
inductive RecvEvent where
  | chunk (s : String)
  | noneData
  | eagain
  | etimedout
  | fatalOs
deriving DecidableEq

-- Events on which the inner loop merely sleeps 100 ms and retries.
def isWaitEvent : RecvEvent → Bool
  | RecvEvent.noneData => true
  | RecvEvent.eagain => true
  | _ => false

-- Outcome of the inner recv loop: the value of the local variable command
-- when the loop breaks, or the loop raising an uncaught OSError.
inductive RecvOutcome where
  | parsed (j : JsonVal)
  | invalidJson
  | timedOut
  | raisedOs

-- The inner while loop of receive_command, src/main.py lines 229-250.
-- parse models ujson.loads (none = ValueError). Returns none only when the
-- event list is exhausted with the loop still running (cannot happen on a
-- real socket whose 3 s deadline eventually yields etimedout).
def recv_loop (parse : String → Option JsonVal) :
    List RecvEvent → Option RecvOutcome
  | [] => none
  | RecvEvent.chunk s :: _ =>
    match parse s with
    | some j => some (RecvOutcome.parsed j)
    | none => some RecvOutcome.invalidJson
  | RecvEvent.noneData :: rest => recv_loop parse rest
  | RecvEvent.eagain :: rest => recv_loop parse rest
  | RecvEvent.etimedout :: _ => some RecvOutcome.timedOut
  | RecvEvent.fatalOs :: _ => some RecvOutcome.raisedOs

-- Result of handling one accepted connection: the relay actions performed,
-- whether conn.close() was reached, and any uncaught Python error (an
-- uncaught error skips conn.close() and kills the listener task).
structure ConnResult where
  actions : List RelayAction
  closed : Bool
  raised : Option PyErr
deriving DecidableEq

-- The command-dispatch block of receive_command, src/main.py lines 253-268.
-- A command value of None (invalid JSON or timeout) skips dispatch and the
-- connection is closed. command[gpio] on a dict without the key raises
-- KeyError, on a non-dict TypeError; both propagate past conn.close().
def dispatch_command (relay : Nat) : RecvOutcome → ConnResult
  | RecvOutcome.parsed j =>
    match pySubscript j gpioKey with
    | Except.error e => ⟨[], false, some e⟩
    | Except.ok v =>
      if v.eqStr onStr then ⟨power_on relay, true, none⟩
      else if v.eqStr fsStr then ⟨force_shutdown relay, true, none⟩
      else ⟨[], true, none⟩
  | RecvOutcome.invalidJson => ⟨[], true, none⟩
  | RecvOutcome.timedOut => ⟨[], true, none⟩
  | RecvOutcome.raisedOs => ⟨[], false, some PyErr.osError⟩

-- One accepted connection of receive_command, src/main.py lines 224-268:
-- run the recv loop on the observed events, then dispatch. raised = none
-- means the outer while True loop continues to the next accept.
def receive_command (parse : String → Option JsonVal) (relay : Nat)
    (events : List RecvEvent) : Option ConnResult :=
  (recv_loop parse events).map (dispatch_command relay)

-- ClockService / DST, src/main.py lines 133-162.

-- Closed-form day-of-week (Zeller), src/main.py lines 136-143.
-- Result 0 = Monday .. 6 = Sunday. All quantities are non-negative for the
-- months 3 and 11 with which _check_dst calls it, so Nat division and mod
-- coincide with Python floor division and mod.
def _weekday (year month day : Nat) : Nat :=
  let year2 := if month < 3 then year - 1 else year
  let month2 := if month < 3 then month + 12 else month
  let k := year2 % 100
  let j := year2 / 100
  let h := (day + (13 * (month2 + 1)) / 5 + k + k / 4 + j / 4 + 5 * j) % 7
  (h + 5) % 7

-- src/main.py lines 145-147. _weekday is at most 6, so the Nat subtraction
-- 6 - wd agrees with the Python expression (6 - wd) % 7.
def second_sun_mar (year : Nat) : Nat :=
  1 + ((6 - _weekday year 3 1) % 7) + 7

-- src/main.py lines 149-151.
def first_sun_nov (year : Nat) : Nat :=
  1 + ((6 - _weekday year 11 1) % 7)

-- The DST decision of _check_dst, src/main.py lines 153-162, as a pure
-- function of the date read from time.localtime().
def _check_dst (year month mday : Nat) : Bool :=
  if 3 < month ∧ month < 11 then true
  else if month = 3 ∧ second_sun_mar year ≤ mday then true
  else if month = 11 ∧ mday < first_sun_nov year then true
  else false

-- Spec-side restatement of the DST rule, for the refinement comparison:
-- the date is on or after the second Sunday of March and strictly before
-- the first Sunday of November of the same year.
def dstActiveSpec (year month mday : Nat) : Prop :=
  (3 < month ∨ (month = 3 ∧ second_sun_mar year ≤ mday)) ∧
    (month < 11 ∨ (month = 11 ∧ mday < first_sun_nov year))

-- MaintenanceScheduler, src/main.py lines 189-210.

inductive SchedEvent where
  | relay (a : RelayAction)
  | sleepS (secs : Nat)
  | ntpSync
  | dstRecompute
deriving DecidableEq

-- One iteration of the while True loop of daily_task. The enableReboots
-- and checkDst parameters embed the module constants ENABLE_REBOOTS and
-- CHECK_DST; hour and minute are fields 3 and 4 of _get_localtime().
def daily_task_step (enableReboots checkDst : Bool)
    (rebootRelay hour minute : Nat) : List SchedEvent :=
  if hour = REBOOT_TIME ∧ minute = 0 then
    (if enableReboots then
        List.map SchedEvent.relay (force_shutdown rebootRelay)
          ++ [SchedEvent.sleepS 3]
          ++ List.map SchedEvent.relay (power_on rebootRelay)
      else [])
      ++ [SchedEvent.ntpSync]
      ++ (if checkDst then [SchedEvent.dstRecompute] else [])
      ++ [SchedEvent.sleepS 3600]
  else [SchedEvent.sleepS 30]

-- Task ownership of relay pins, src/main.py lines 294-297.

inductive SysTask where
  | server1
  | server2
  | server3
  | scheduler
deriving DecidableEq

-- The relay pin statically bound to each task at creation:
-- receive_command(s1, *__RELAY_PORT1) etc., daily_task(__REBOOT_RELAY).
def taskRelayPins : SysTask → List Nat
  | SysTask.server1 => [__RELAY_PORT1.1]
  | SysTask.server2 => [__RELAY_PORT2.1]
  | SysTask.server3 => [__RELAY_PORT3.1]
  | SysTask.scheduler => [__REBOOT_RELAY]

-- The pins a task can actually actuate in the shipped configuration: the
-- scheduler only pulses its relay inside the if ENABLE_REBOOTS branch.
def taskActuatedPins : SysTask → List Nat
  | SysTask.scheduler => if ENABLE_REBOOTS then [__REBOOT_RELAY] else []
  | t => taskRelayPins t

-- Claim C3 as stated: pairwise disjoint bound relay pins across tasks.
def claimC3 : Prop :=
  ∀ t1 t2 : SysTask, t1 ≠ t2 →
    (taskRelayPins t1).inter (taskRelayPins t2) = []

-- NetworkSupervisor, src/main.py lines 74-107. Time is the number of
-- elapsed one-second sleeps; isconn is the connectivity oracle
-- (nic.isconnected() sampled at that time).

-- The inner wait loop of attempt_connection, src/main.py lines 85-88:
-- polls connectivity, sleeping one second per failed poll, for at most
-- NETWORK_TIMEOUT sleeps. Returns the time at which the loop exits.
def waitLoop (isconn : Nat → Bool) : Nat → Nat → Nat
  | t, 0 => t
  | t, budget + 1 => if isconn t then t else waitLoop isconn (t + 1) budget

-- attempt_connection, src/main.py lines 74-99, with explicit fuel bounding
-- the number of connection attempts (the source retries without bound).
-- Returns the time at which it observed isconnected() and returned, or
-- none when the fuel ran out while the source loop would still be running.
def attempt_connection (isconn : Nat → Bool) : Nat → Nat → Option Nat
  | _, 0 => none
  | t, fuel + 1 =>
    if isconn (waitLoop isconn t NETWORK_TIMEOUT) then
      some (waitLoop isconn t NETWORK_TIMEOUT)
    else attempt_connection isconn (waitLoop isconn t NETWORK_TIMEOUT + 1) fuel

-- One iteration of check_connection after its CHECK_TIME sleep,
-- src/main.py lines 101-107: on a failed liveness probe it re-invokes
-- attempt_connection, otherwise it does nothing until the next sleep.
def check_connection_step (isconn : Nat → Bool) (pingOk : Bool)
    (t fuel : Nat) : Option Nat :=
  if pingOk then some t else attempt_connection isconn t fuel

-- FaultSupervisor, src/main.py lines 270-311.

-- The resources main() tracks: the three listening sockets, the
-- sockets_opened flag, and the log file handle.
structure MainState where
  s1open : Bool
  s2open : Bool
  s3open : Bool
  socketsOpened : Bool
  logOpen : Bool
deriving DecidableEq

-- At module load the log file is open exactly when logging is enabled
-- (src/main.py lines 55-56); no socket exists yet.
def initState (enableLogging : Bool) : MainState :=
  ⟨false, false, false, false, enableLogging⟩

-- The statements of the try block of main() that change tracked state,
-- in source order, src/main.py lines 272-300.
inductive MainStep where
  | connectNet
  | spawnWatchdog
  | syncClock
  | openS1
  | openS2
  | openS3
  | markOpened
  | spawnTasks
deriving DecidableEq

def mainSteps : List MainStep :=
  [MainStep.connectNet, MainStep.spawnWatchdog, MainStep.syncClock,
   MainStep.openS1, MainStep.openS2, MainStep.openS3,
   MainStep.markOpened, MainStep.spawnTasks]

def applyStep (st : MainState) : MainStep → MainState
  | MainStep.openS1 => { st with s1open := true }
  | MainStep.openS2 => { st with s2open := true }
  | MainStep.openS3 => { st with s3open := true }
  | MainStep.markOpened => { st with socketsOpened := true }
  | _ => st

-- State observed by the except handler when a fault interrupts main()
-- after its first k tracked statements completed.
def stateAfter (enableLogging : Bool) (k : Nat) : MainState :=
  List.foldl applyStep (initState enableLogging) (mainSteps.take k)

structure FaultOutcome where
  final : MainState
  didReset : Bool
deriving DecidableEq

-- The except block of main(), src/main.py lines 302-311: close the log
-- file when logging is enabled, close s1 s2 s3 only when the
-- sockets_opened flag was set, then machine.reset().
def fault_handler (enableLogging : Bool) (st : MainState) : FaultOutcome :=
  let st1 := if enableLogging then { st with logOpen := false } else st
  let st2 :=
    if st1.socketsOpened then
      { st1 with s1open := false, s2open := false, s3open := false }
    else st1
  ⟨st2, true⟩

def noOpenSockets (st : MainState) : Bool :=
  !st.s1open && !st.s2open && !st.s3open

-- Claim C9 as stated: the handler closes every socket open at fault time,
-- whichever start-up step the fault interrupted.
def claimC9 : Prop :=
  ∀ (el : Bool) (k : Nat),
    noOpenSockets (fault_handler el (stateAfter el k)).final = true

-- Theorems.

-- Helper: the inner recv loop ignores a prefix of wait events (None reads
-- and EAGAIN), merely sleeping and retrying.
theorem recv_loop_skips_waits (parse : String → Option JsonVal)
    (pre rest : List RecvEvent) (h : pre.all isWaitEvent = true) :
    recv_loop parse (pre ++ rest) = recv_loop parse rest := by
  induction pre with
  | nil => rfl
  | cons e pre ih =>
    rw [List.all_cons, Bool.and_eq_true] at h
    cases e with
    | noneData => simpa [recv_loop] using ih h.2
    | eagain => simpa [recv_loop] using ih h.2
    | chunk s => simp [isWaitEvent] at h
    | etimedout => simp [isWaitEvent] at h
    | fatalOs => simp [isWaitEvent] at h

/-- C1: a connection whose payload fails to decode as JSON (ujson.loads
raises ValueError; the empty payload is an instance) performs no relay
action at all, reaches conn.close(), and raises nothing, so the outer
accept loop of receive_command continues with the next connection. Any
number of idle reads may precede the payload. -/
theorem receive_command_invalid_json (parse : String → Option JsonVal)
    (relay : Nat) (pre : List RecvEvent) (s : String)
    (h1 : pre.all isWaitEvent = true) (h2 : parse s = none) :
    receive_command parse relay (pre ++ [RecvEvent.chunk s]) =
      some ⟨[], true, none⟩ := by
  unfold receive_command
  rw [recv_loop_skips_waits parse pre _ h1]
  simp [recv_loop, h2, dispatch_command]

theorem receive_command_invalid_json_witness :
    ([RecvEvent.eagain, RecvEvent.noneData] : List RecvEvent).all
        isWaitEvent = true
    ∧ (fun _ : String => (none : Option JsonVal)) emptyStr = none
    ∧ receive_command (fun _ => none) __RELAY_PORT1.1
        ([RecvEvent.eagain, RecvEvent.noneData]
          ++ [RecvEvent.chunk emptyStr]) = some ⟨[], true, none⟩ :=
  ⟨rfl, rfl,
   receive_command_invalid_json (fun _ => none) __RELAY_PORT1.1
     [RecvEvent.eagain, RecvEvent.noneData] emptyStr rfl rfl⟩

/-- C2 counter-evidence (code bug): a payload that decodes to a JSON object
without a gpio key makes command[gpio] raise KeyError, and a non-object
payload makes it raise TypeError; in both cases no relay action occurs but
conn.close() is never reached and the error propagates out of the listener
task, so the connection is not closed and that port stops listening —
contrary to the claim that an invalid command is never fatal and always
ends with the connection closed. -/
theorem dispatch_command_missing_gpio_raises :
    dispatch_command __RELAY_PORT1.1
        (RecvOutcome.parsed (JsonVal.obj [(fooKey, JsonVal.str barStr)])) =
      ⟨[], false, some PyErr.keyError⟩
    ∧ dispatch_command __RELAY_PORT1.1
        (RecvOutcome.parsed (JsonVal.str onStr)) =
      ⟨[], false, some PyErr.typeError⟩ := by
  constructor <;> rfl

/-- C4: a decoded command whose gpio entry is the string on makes
receive_command run exactly the power_on trace of its bound relay, and one
whose gpio entry is fs runs exactly the force_shutdown trace; starting from
a LOW pin, power_on holds the pin HIGH for exactly SHORT_RELAY_TIME = 200
milliseconds and force_shutdown for exactly LONG_RELAY_TIME = 7000
milliseconds, the two durations are distinct, and both traces end with the
pin LOW. -/
theorem relay_pulse_spec (relay : Nat) (j : JsonVal) :
    (pySubscript j gpioKey = Except.ok (JsonVal.str onStr) →
      dispatch_command relay (RecvOutcome.parsed j) =
        ⟨power_on relay, true, none⟩)
    ∧ (pySubscript j gpioKey = Except.ok (JsonVal.str fsStr) →
      dispatch_command relay (RecvOutcome.parsed j) =
        ⟨force_shutdown relay, true, none⟩)
    ∧ highTime 0 (power_on relay) = SHORT_RELAY_TIME
    ∧ highTime 0 (force_shutdown relay) = LONG_RELAY_TIME
    ∧ finalLevel 0 (power_on relay) = 0
    ∧ finalLevel 0 (force_shutdown relay) = 0
    ∧ SHORT_RELAY_TIME = 200
    ∧ LONG_RELAY_TIME = 7000
    ∧ SHORT_RELAY_TIME ≠ LONG_RELAY_TIME := by
  refine ⟨?_, ?_, rfl, rfl, rfl, rfl, rfl, rfl, by decide⟩ <;>
    intro h <;>
    simp [dispatch_command, h, JsonVal.eqStr, onStr, fsStr,
      power_on, force_shutdown]

theorem relay_pulse_spec_witness :
    pySubscript (JsonVal.obj [(gpioKey, JsonVal.str onStr)]) gpioKey =
        Except.ok (JsonVal.str onStr)
    ∧ dispatch_command __RELAY_PORT2.1
        (RecvOutcome.parsed (JsonVal.obj [(gpioKey, JsonVal.str onStr)])) =
        ⟨power_on __RELAY_PORT2.1, true, none⟩
    ∧ dispatch_command __RELAY_PORT2.1
        (RecvOutcome.parsed (JsonVal.obj [(gpioKey, JsonVal.str fsStr)])) =
        ⟨force_shutdown __RELAY_PORT2.1, true, none⟩ :=
  ⟨rfl,
   (relay_pulse_spec __RELAY_PORT2.1
      (JsonVal.obj [(gpioKey, JsonVal.str onStr)])).1 rfl,
   (relay_pulse_spec __RELAY_PORT2.1
      (JsonVal.obj [(gpioKey, JsonVal.str fsStr)])).2.1 rfl⟩

/-- C6: a connection on which only idle reads occur until the socket-level
read deadline (conn.settimeout(3), three seconds) raises ETIMEDOUT performs
no relay action, reaches conn.close(), and raises nothing, so the accept
loop of receive_command returns to listening. -/
theorem receive_command_timeout (parse : String → Option JsonVal)
    (relay : Nat) (pre : List RecvEvent)
    (h : pre.all isWaitEvent = true) :
    receive_command parse relay (pre ++ [RecvEvent.etimedout]) =
        some ⟨[], true, none⟩
    ∧ RECV_TIMEOUT_S = 3 := by
  refine ⟨?_, rfl⟩
  unfold receive_command
  rw [recv_loop_skips_waits parse pre _ h]
  simp [recv_loop, dispatch_command]

theorem receive_command_timeout_witness :
    ([RecvEvent.noneData, RecvEvent.eagain] : List RecvEvent).all
        isWaitEvent = true
    ∧ receive_command (fun _ => none) __RELAY_PORT3.1
        ([RecvEvent.noneData, RecvEvent.eagain]
          ++ [RecvEvent.etimedout]) = some ⟨[], true, none⟩ :=
  ⟨rfl,
   (receive_command_timeout (fun _ => none) __RELAY_PORT3.1
      [RecvEvent.noneData, RecvEvent.eagain] rfl).1⟩

/-- C5: _check_dst marks DST active exactly when the date is on or after
the second Sunday of March and strictly before the first Sunday of November
of its year (whole days: active from 00:00 of the start day, inactive from
00:00 of the end day); for 2024 the computed boundaries are March 10 and
November 3, with March 10 active and November 3 inactive. -/
theorem check_dst_correct (y m d : Nat) :
    (_check_dst y m d = true ↔ dstActiveSpec y m d)
    ∧ second_sun_mar 2024 = 10
    ∧ first_sun_nov 2024 = 3
    ∧ _check_dst 2024 3 9 = false
    ∧ _check_dst 2024 3 10 = true
    ∧ _check_dst 2024 11 2 = true
    ∧ _check_dst 2024 11 3 = false := by
  refine ⟨?_, by decide, by decide, by decide, by decide, by decide,
    by decide⟩
  unfold _check_dst dstActiveSpec
  split_ifs with h1 h2 h3 <;> simp <;> omega

/-- C10: for every year, the computed second Sunday of March lies between
8 and 14 and the computed first Sunday of November lies between 1 and 7,
so both are valid calendar days of the rule. -/
theorem dst_boundaries_valid (y : Nat) :
    8 ≤ second_sun_mar y ∧ second_sun_mar y ≤ 14
    ∧ 1 ≤ first_sun_nov y ∧ first_sun_nov y ≤ 7 := by
  unfold second_sun_mar first_sun_nov
  have h1 : (6 - _weekday y 3 1) % 7 < 7 := Nat.mod_lt _ (by decide)
  have h2 : (6 - _weekday y 11 1) % 7 < 7 := Nat.mod_lt _ (by decide)
  omega

/-- C3 counterexample: the claim that the relay-pin sets of every pair of
distinct tasks are disjoint is false at the concrete pair (CommandServer 1,
MaintenanceScheduler): daily_task is created with __REBOOT_RELAY, which the
source defines as __RELAY_PORT1[0], the very pin CommandServer 1 drives. -/
theorem task_pins_not_disjoint : ¬ claimC3 := fun hc =>
  absurd (hc SysTask.server1 SysTask.scheduler (by decide)) (by decide)

/-- C3 amended: the three CommandServer instances have pairwise disjoint
relay pins, but the MaintenanceScheduler is bound to __REBOOT_RELAY, which
is exactly CommandServer 1 relay pin, so the stated disjointness fails for
that pair; in the shipped configuration ENABLE_REBOOTS = false the
scheduler never actuates any pin, so the sets of pins the tasks actually
actuate are still pairwise disjoint. -/
theorem task_pins_amended (t1 t2 : SysTask) (h : t1 ≠ t2) :
    (t1 ≠ SysTask.scheduler → t2 ≠ SysTask.scheduler →
        (taskRelayPins t1).inter (taskRelayPins t2) = [])
    ∧ (taskActuatedPins t1).inter (taskActuatedPins t2) = []
    ∧ __REBOOT_RELAY = __RELAY_PORT1.1 := by
  cases t1 <;> cases t2 <;>
    first
    | exact absurd rfl h
    | exact ⟨fun _ _ => by decide, by decide, rfl⟩
    | exact ⟨fun h1 h2 => absurd rfl h2, by decide, rfl⟩
    | exact ⟨fun h1 h2 => absurd rfl h1, by decide, rfl⟩

theorem task_pins_amended_witness :
    (taskRelayPins SysTask.server1).inter (taskRelayPins SysTask.server2)
        = []
    ∧ (taskActuatedPins SysTask.server1).inter
        (taskActuatedPins SysTask.scheduler) = [] :=
  ⟨(task_pins_amended SysTask.server1 SysTask.server2 (by decide)).1
      (by decide) (by decide),
   (task_pins_amended SysTask.server1 SysTask.scheduler (by decide)).2.1⟩

/-- C8: on a poll of daily_task where the local hour equals REBOOT_TIME and
the minute is exactly 0, the iteration runs the force_shutdown trace on the
maintenance relay, sleeps 3 seconds and runs the power_on trace exactly
when reboots are enabled, in every case then resynchronizes the clock via
ntptime.settime and (CHECK_DST being true) recomputes DST, and finally
sleeps 3600 seconds; on every other poll the iteration only sleeps 30
seconds. -/
theorem daily_task_step_spec (er : Bool) (relay h m : Nat) :
    (h = REBOOT_TIME ∧ m = 0 →
      daily_task_step er CHECK_DST relay h m =
        (if er then
            List.map SchedEvent.relay (force_shutdown relay)
              ++ [SchedEvent.sleepS 3]
              ++ List.map SchedEvent.relay (power_on relay)
          else [])
          ++ [SchedEvent.ntpSync, SchedEvent.dstRecompute,
              SchedEvent.sleepS 3600])
    ∧ (¬(h = REBOOT_TIME ∧ m = 0) →
      daily_task_step er CHECK_DST relay h m = [SchedEvent.sleepS 30]) := by
  constructor <;> intro hc <;> simp [daily_task_step, hc, CHECK_DST]

theorem daily_task_step_spec_witness :
    daily_task_step true CHECK_DST __REBOOT_RELAY REBOOT_TIME 0 =
        List.map SchedEvent.relay (force_shutdown __REBOOT_RELAY)
          ++ [SchedEvent.sleepS 3]
          ++ List.map SchedEvent.relay (power_on __REBOOT_RELAY)
          ++ [SchedEvent.ntpSync, SchedEvent.dstRecompute,
              SchedEvent.sleepS 3600]
    ∧ daily_task_step false CHECK_DST __REBOOT_RELAY REBOOT_TIME 1 =
        [SchedEvent.sleepS 30] := by
  constructor
  · have h := (daily_task_step_spec true __REBOOT_RELAY REBOOT_TIME 0).1
      ⟨rfl, rfl⟩
    simpa using h
  · exact (daily_task_step_spec false __REBOOT_RELAY REBOOT_TIME 1).2
      (by decide)

/-- C9 counterexample: when the fault interrupts main() right after socket
s1 was opened (four tracked statements done, sockets_opened still false),
the except handler closes nothing: s1 is open at fault time and still open
after the handler, refuting the claim that every open listening socket is
closed regardless of which start-up step raised the fault. -/
theorem fault_handler_partial_leak :
    (stateAfter false 4).s1open = true
    ∧ (stateAfter false 4).socketsOpened = false
    ∧ (fault_handler false (stateAfter false 4)).final.s1open = true
    ∧ ¬ claimC9 :=
  ⟨by decide, by decide, by decide,
   fun hc => absurd (hc false 4) (by decide)⟩

/-- C9 amended: the except handler of main() always performs the device
reset, closes the log sink whenever logging is enabled, and closes all
three listening sockets whenever the sockets_opened flag was set at fault
time (in particular after a fully completed start-up); but a fault striking
between the first socket creation and the setting of the flag leaves the
already-open sockets unclosed. -/
theorem fault_handler_spec (el : Bool) (k : Nat) :
    ((stateAfter el k).socketsOpened = true →
      noOpenSockets (fault_handler el (stateAfter el k)).final = true)
    ∧ (el = true →
      (fault_handler el (stateAfter el k)).final.logOpen = false)
    ∧ (fault_handler el (stateAfter el k)).didReset = true := by
  refine ⟨?_, ?_, rfl⟩
  · intro hso
    cases el <;> simp [fault_handler, noOpenSockets, hso]
  · intro hel
    subst hel
    cases hso : (stateAfter true k).socketsOpened <;>
      simp [fault_handler, hso]

theorem fault_handler_spec_witness :
    noOpenSockets (fault_handler true (stateAfter true 8)).final = true
    ∧ (fault_handler true (stateAfter true 8)).final.logOpen = false :=
  ⟨(fault_handler_spec true 8).1 (by decide),
   (fault_handler_spec true 8).2.1 rfl⟩

-- Helpers for the NetworkSupervisor claims.

theorem waitLoop_succ (isconn : Nat → Bool) (t n : Nat) :
    waitLoop isconn t (n + 1) =
      if isconn t then t else waitLoop isconn (t + 1) n := rfl

theorem attempt_connection_succ (isconn : Nat → Bool) (t fuel : Nat) :
    attempt_connection isconn t (fuel + 1) =
      if isconn (waitLoop isconn t NETWORK_TIMEOUT) then
        some (waitLoop isconn t NETWORK_TIMEOUT)
      else
        attempt_connection isconn
          (waitLoop isconn t NETWORK_TIMEOUT + 1) fuel := rfl

-- The wait loop spends at most its budget of one-second sleeps.
theorem waitLoop_le (isconn : Nat → Bool) (k : Nat) :
    ∀ t : Nat, waitLoop isconn t k ≤ t + k := by
  induction k with
  | zero => intro t; simp [waitLoop]
  | succ n ih =>
    intro t
    rw [waitLoop_succ]
    split
    · omega
    · have := ih (t + 1)
      omega

-- attempt_connection only returns at a moment where the link reports
-- connected.
theorem attempt_connection_connected (isconn : Nat → Bool) :
    ∀ fuel t t2 : Nat,
      attempt_connection isconn t fuel = some t2 → isconn t2 = true := by
  intro fuel
  induction fuel with
  | zero =>
    intro t t2 h
    simp [attempt_connection] at h
  | succ n ih =>
    intro t t2 h
    rw [attempt_connection_succ] at h
    split at h
    · next hc =>
      injection h with h2
      rw [← h2]
      exact hc
    · exact ih _ _ h

-- If the link stays down throughout, the wait loop exhausts its budget.
theorem waitLoop_all_false (isconn : Nat → Bool) :
    ∀ k t : Nat, (∀ i, i < k → isconn (t + i) = false) →
      waitLoop isconn t k = t + k := by
  intro k
  induction k with
  | zero => intro t _; simp [waitLoop]
  | succ n ih =>
    intro t h
    have h0 : isconn t = false := by simpa using h 0 (Nat.succ_pos n)
    rw [waitLoop_succ, h0]
    simp only [Bool.false_eq_true, if_false]
    have hrec : waitLoop isconn (t + 1) n = t + 1 + n := by
      apply ih
      intro i hi
      have h2 := h (i + 1) (by omega)
      have h3 : t + (i + 1) = t + 1 + i := by omega
      rw [h3] at h2
      exact h2
    omega

-- With connectivity first appearing at time 11 * (m + n), the attempt
-- starting at time 11 * m goes through exactly n failed attempts (10 wait
-- seconds plus 1 backoff second each) and then succeeds: the retry count
-- is limited by nothing but the environment.
theorem attempt_connection_unbounded (n : Nat) :
    ∀ m : Nat,
      attempt_connection (fun t => decide (11 * (m + n) ≤ t)) (11 * m)
          (n + 1) =
        some (11 * (m + n)) := by
  induction n with
  | zero =>
    intro m
    rw [attempt_connection_succ]
    have hw : waitLoop (fun t => decide (11 * (m + 0) ≤ t)) (11 * m)
        NETWORK_TIMEOUT = 11 * m := by
      have h10 : NETWORK_TIMEOUT = 9 + 1 := rfl
      rw [h10, waitLoop_succ]
      simp
    rw [hw]
    simp
  | succ n ih =>
    intro m
    have hw : waitLoop (fun t => decide (11 * (m + (n + 1)) ≤ t)) (11 * m)
        NETWORK_TIMEOUT = 11 * m + NETWORK_TIMEOUT := by
      apply waitLoop_all_false
      intro i hi
      simp only [NETWORK_TIMEOUT] at hi
      simp only [decide_eq_false_iff_not]
      omega
    rw [attempt_connection_succ, hw]
    have hnot : decide (11 * (m + (n + 1)) ≤ 11 * m + NETWORK_TIMEOUT)
        = false := by
      simp only [NETWORK_TIMEOUT, decide_eq_false_iff_not]
      omega
    rw [hnot]
    simp only [Bool.false_eq_true, if_false]
    have h11 : 11 * m + NETWORK_TIMEOUT + 1 = 11 * (m + 1) := by
      simp only [NETWORK_TIMEOUT]
      omega
    rw [h11, show m + (n + 1) = m + 1 + n from by omega]
    exact ih (m + 1)

/-- C7: attempt_connection returns only at a time where the link reports
connected; each attempt waits for connectivity through at most
NETWORK_TIMEOUT = 10 one-second polls; after a failed attempt it sleeps
one further second and retries, and no retry counter exists: for every n
there is a connectivity environment under which it completes exactly n
failed attempts and then succeeds; and one iteration of the
check_connection watchdog whose liveness probe failed performs exactly an
invocation of that same attempt_connection procedure. -/
theorem connection_procedure_spec :
    (∀ (isconn : Nat → Bool) (fuel t t2 : Nat),
        attempt_connection isconn t fuel = some t2 → isconn t2 = true)
    ∧ NETWORK_TIMEOUT = 10
    ∧ (∀ (isconn : Nat → Bool) (k t : Nat),
        waitLoop isconn t k ≤ t + k)
    ∧ (∀ (isconn : Nat → Bool) (t fuel : Nat),
        isconn (waitLoop isconn t NETWORK_TIMEOUT) = false →
          attempt_connection isconn t (fuel + 1) =
            attempt_connection isconn
              (waitLoop isconn t NETWORK_TIMEOUT + 1) fuel)
    ∧ (∀ n : Nat,
        attempt_connection (fun t => decide (11 * n ≤ t)) 0 (n + 1) =
          some (11 * n))
    ∧ (∀ (isconn : Nat → Bool) (t fuel : Nat),
        check_connection_step isconn false t fuel =
          attempt_connection isconn t fuel) := by
  refine ⟨attempt_connection_connected, rfl,
    fun isconn k t => waitLoop_le isconn k t, ?_, ?_, ?_⟩
  · intro isconn t fuel h
    rw [attempt_connection_succ, h]
    simp
  · intro n
    simpa using attempt_connection_unbounded n 0
  · intro isconn t fuel
    simp [check_connection_step]

theorem connection_procedure_spec_witness :
    (fun _ : Nat => true) 0 = true
    ∧ attempt_connection (fun _ => false) 0 (0 + 1) =
        attempt_connection (fun _ => false)
          (waitLoop (fun _ => false) 0 NETWORK_TIMEOUT + 1) 0 :=
  ⟨connection_procedure_spec.1 (fun _ => true) 1 0 0 rfl,
   connection_procedure_spec.2.2.2.1 (fun _ => false) 0 0 rfl⟩
